import Mathlib

/-!
Shallow embedding of the world renderer in `src/world/model.py` (class `World`):
construction (`World.__init__`), the top-down renderer (`World.draw_top_view`) and
the panoramic renderer (`World.draw_panoramic_view`).

Modelling conventions:
* Python floats are modelled by `ℚ`; Python 2 integer division (`width/2`,
  `height/2` on ints) is `ℕ` division; `datetime.now()` is an explicit `now : ℤ`
  argument (an opaque time stamp).
* Angles are carried in units of pi: a value `t` stands for the angle `t * pi`.
  The code's `theta % np.pi` becomes `qmod t 1` and `(np.pi + phi) % (2 np.pi)`
  becomes `qmod (1 + p) 2`, which are the same operations up to the fixed
  rescaling by pi.
* The external collaborators (`vec2sph` from `utils`, the sky model's generated
  radiance, the compound eye's per-ommatidium samples `eye.L`) are inputs:
  the renderer receives the projection function `v2s` and the sampled sky
  values `L` as arguments.
* Images are modelled by the ordered list of draw operations issued to PIL
  (`draw.polygon`, `draw.line`, `draw.rectangle`, pixel stores); PIL itself is
  external.  Pixel contents are recovered from the operation list by folding an
  abstract coverage function (`topPixel`).
* In-place mutation is modelled by explicit state passing: `World.__init__`
  mutates the caller's observer, so `mkWorld` returns the updated observer next
  to the world; `draw_panoramic_view` may mutate the sky model's clock, so it
  returns the updated world next to the operation list.
-/

namespace Willshaw

/-- Integer RGB colour triple (the `c_int32` colour of a polygon). -/
abbrev Colour := ℤ × ℤ × ℤ

/-- GRASS_COLOUR from model.py line 16. -/
def GRASS_COLOUR : Colour := (0, 255, 0)

/-- GROUND_COLOUR from model.py line 17. -/
def GROUND_COLOUR : Colour := (229, 183, 90)

/-- SKY_COLOUR from model.py line 18. -/
def SKY_COLOUR : Colour := (13, 135, 201)

/-- Modelled from the spec: one polygon of the external geometry container
(`geometry.PolygonList` is not under src/): a vertex sequence with 3D
coordinates and an intrinsic RGB colour. -/
structure Polygon where
  vertices : List (ℚ × ℚ × ℚ)
  colour : Colour
  deriving DecidableEq

/-- Modelled from the spec: one route of the external geometry container
(`geometry.Route`): positions plus the integer agent and route identifiers
(`agent_no`, `route_no`), which are 1-based in the data. -/
structure Route where
  positions : List (ℚ × ℚ × ℚ)
  agent_no : ℕ
  route_no : ℕ
  deriving DecidableEq

/-- Modelled from the spec: an `ephem.Observer`; only its mutable `date` field
is relevant to the renderer, kept as an opaque integer time stamp. -/
structure Observer where
  date : ℤ
  deriving DecidableEq

/-- Modelled from the spec: the external `ChromaticitySkyModel` keeps the
observer it was created from (`self.sky.obs`); the observer's date is the sky
model's internal clock.  The generated radiance is consumed only through the
eye samples `L` passed to the renderer, so it is not part of the state. -/
structure ChromaticitySkyModel where
  obs : Observer
  deriving DecidableEq

/-- Modelled from the spec: `get_seville_observer()` builds the default
observer used when the caller passes none. -/
def seville_observer : Observer := { date := 0 }

/-- The state stored by `World.__init__` (model.py lines 55-69). -/
structure World where
  sky : ChromaticitySkyModel
  pol_filters : Bool
  polygons : List Polygon
  routes : List Route
  width : ℕ
  length : ℕ
  height : ℕ
  normalise_factor : ℚ
  uniform_sky : Bool
  deriving DecidableEq

/-- The `ratio2meters` property (model.py lines 71-73). -/
def World.ratio2meters (w : World) : ℚ := w.normalise_factor

/-- The only failure the two renderers and the constructor can actually hit in
the modelled fragment: numpy's `ValueError` for `max()` of an empty array.
The code contains no raise statement and no ConfigurationError class. -/
inductive RenderError where
  | emptyMax
  deriving DecidableEq

/-- numpy `ndarray.max()` over a rational array: a ValueError on an empty
array, hence `Option`. -/
def np_max (l : List ℚ) : Option ℚ :=
  match l with
  | [] => none
  | x :: xs => some (xs.foldl max x)

/-- numpy `ndarray.max()` over an integer array (the route identifiers). -/
def np_max_nat (l : List ℕ) : Option ℕ :=
  match l with
  | [] => none
  | x :: xs => some (xs.foldl max x)

/-- The value of `np_max` where nonemptiness is known, with fallback 0. -/
def qmax (l : List ℚ) : ℚ := (np_max l).getD 0

/-- numpy `ndarray.min()` with fallback 0 on the empty array. -/
def qmin (l : List ℚ) : ℚ :=
  match l with
  | [] => 0
  | x :: xs => xs.foldl min x

/-- numpy `linspace(a, b, n, endpoint=False)`: n samples starting at `a`,
stepping by `(b - a) / n`, never reaching `b`. -/
def np_linspace (a b : ℚ) (n : ℕ) : List ℚ :=
  (List.range n).map (fun k : ℕ => a + (b - a) * (k : ℚ) / (n : ℚ))

/-- numpy `linspace(a, b, n)` with the default `endpoint=True`: n samples from
`a` to `b` inclusive; for n = 1 the single sample is `a`. -/
def np_linspace_ep (a b : ℚ) (n : ℕ) : List ℚ :=
  if n = 1 then [a]
  else (List.range n).map (fun k : ℕ => a + (b - a) * (k : ℚ) / ((n - 1 : ℕ) : ℚ))

/-- Python `int(x)` / the magnitude part of a numpy integer cast: truncation
toward zero. -/
def qtrunc (x : ℚ) : ℤ := if 0 ≤ x then ⌊x⌋ else -⌊-x⌋

/-- numpy `int32(x)`: truncation toward zero followed by the 32-bit
two's-complement wrap. -/
def np_int32 (x : ℚ) : ℤ := (qtrunc x + 2 ^ 31) % 2 ^ 32 - 2 ^ 31

/-- numpy `%` on floats (like Python `%`): the remainder has the sign of the
divisor, `a - b * floor (a / b)`. -/
def qmod (a b : ℚ) : ℚ := a - b * ⌊a / b⌋

/-- numpy array indexing with a possibly negative (from-the-end) index,
defaulting to 0 out of range (in range in every use below). -/
def np_index (l : List ℚ) (i : ℤ) : ℚ :=
  if 0 ≤ i then l.getD i.toNat 0 else l.getD (l.length - i.natAbs) 0

/-- All vertices of all polygons, in order. -/
def verts (polys : List Polygon) : List (ℚ × ℚ × ℚ) := polys.flatMap Polygon.vertices

/-- Modelled from the spec: `PolygonList.x`, the flat array of every vertex's
x coordinate (the geometry container is not under src/). -/
def allX (polys : List Polygon) : List ℚ := (verts polys).map (fun v => v.1)

/-- Modelled from the spec: `PolygonList.y`. -/
def allY (polys : List Polygon) : List ℚ := (verts polys).map (fun v => v.2.1)

/-- Modelled from the spec: `PolygonList.z`. -/
def allZ (polys : List Polygon) : List ℚ := (verts polys).map (fun v => v.2.2)

/-- `World.__init__` (model.py lines 46-69): computes
`xmax = np.array([polygons.x.max(), polygons.y.max(), polygons.z.max()]).max()`,
overwrites the observer's date with the current time (`now`), creates the sky
model from that observer, and stores polygons, dimensions and flags.  The
mutation of the caller's observer is modelled by returning the updated observer
next to the world.  `np.max` of an empty coordinate array raises, hence
`Except`; no other failure path exists in the source. -/
def mkWorld (observer : Option Observer) (polygons : List Polygon)
    (width length height : ℕ) (uniform_sky pol_filters : Bool) (now : ℤ) :
    Except RenderError (World × Observer) :=
  match np_max (allX polygons), np_max (allY polygons), np_max (allZ polygons) with
  | some mx, some my, some mz =>
    let obs0 := observer.getD seville_observer
    let obs1 : Observer := { obs0 with date := now }
    .ok ({ sky := { obs := obs1 }, pol_filters := pol_filters, polygons := polygons,
           routes := [], width := width, length := length, height := height,
           normalise_factor := max (max mx my) mz, uniform_sky := uniform_sky }, obs1)
  | _, _, _ => .error .emptyMax

/-- `World.add_route` (model.py lines 84-92). -/
def addRoute (w : World) (rt : Route) : World := { w with routes := w.routes ++ [rt] }

/-- One draw call of the top view: `draw.polygon(pp.xy, fill)` or
`draw.line(rt.xy, fill)`. -/
inductive TopOp where
  | polygon (xy : List (ℚ × ℚ)) (fill : Colour)
  | line (xy : List (ℚ × ℚ)) (fill : Colour)
  deriving DecidableEq

/-- Fill colour of a top-view draw call. -/
def topFill : TopOp → Colour
  | .polygon _ c => c
  | .line _ c => c

/-- `colorsys.hsv_to_rgb`, ported verbatim from the Python standard library. -/
def hsv_to_rgb (h s v : ℚ) : ℚ × ℚ × ℚ :=
  if s = 0 then (v, v, v)
  else
    let i0 : ℤ := qtrunc (h * 6)
    let f : ℚ := h * 6 - i0
    let p : ℚ := v * (1 - s)
    let q : ℚ := v * (1 - s * f)
    let t : ℚ := v * (1 - s * (1 - f))
    let i : ℤ := i0 % 6
    if i = 0 then (v, t, p)
    else if i = 1 then (q, v, p)
    else if i = 2 then (p, v, q)
    else if i = 3 then (q, p, t)
    else if i = 4 then (t, p, v)
    else (p, q, v)

/-- `p.scale(ratio2meters, ...)` followed by `p * [width, length, height]` and
`.xy` (model.py lines 120-122, 129-130): each coordinate is divided by the
normalisation factor and multiplied by the target dimension; the z component is
dropped by the 2D projection. -/
def scaled_xy (r : ℚ) (width length : ℕ) (pts : List (ℚ × ℚ × ℚ)) : List (ℚ × ℚ) :=
  pts.map (fun p => (p.1 / r * (width : ℚ), p.2.1 / r * (length : ℚ)))

/-- Hue, saturation and value of a route's polyline (model.py lines 131-133):
`h = np.linspace(0, 1, nants)[rt.agent_no - 1]`,
`s = np.linspace(0, 1, nroutes)[rt.route_no - 1]`, `v = .5`. -/
def route_hsv (nants nroutes : ℕ) (rt : Route) : ℚ × ℚ × ℚ :=
  (np_index (np_linspace_ep 0 1 nants) ((rt.agent_no : ℤ) - 1),
   np_index (np_linspace_ep 0 1 nroutes) ((rt.route_no : ℤ) - 1),
   1 / 2)

/-- Route fill colour (model.py lines 134-135): hsv converted to rgb, each
channel scaled by 255 and truncated by `int(...)`. -/
def route_colour (nants nroutes : ℕ) (rt : Route) : Colour :=
  let hsv := route_hsv nants nroutes rt
  let rgb := hsv_to_rgb hsv.1 hsv.2.1 hsv.2.2
  (qtrunc (rgb.1 * 255), qtrunc (rgb.2.1 * 255), qtrunc (rgb.2.2 * 255))

/-- The polygon stage of the top view (model.py lines 120-122): one filled
polygon per stored polygon, in list order, with its intrinsic colour. -/
def topPolygonOps (w : World) (width length : ℕ) : List TopOp :=
  w.polygons.map (fun p =>
    TopOp.polygon (scaled_xy w.normalise_factor width length p.vertices) p.colour)

/-- `World.draw_top_view` (model.py lines 94-137): background GROUND_COLOUR,
polygon fills in list order, then one polyline per route coloured by
`route_colour` where `nants` and `nroutes` are the maxima of the identifiers
over all routes.  `np.array([...]).max()` raises on an empty route list (line
125), which is the only failure path, and it is hit after the polygon draw
calls have been issued but before any route is drawn. -/
def draw_top_view (w : World) (widthO lengthO _heightO : Option ℕ) :
    Except RenderError (List TopOp) :=
  let width := widthO.getD w.width
  let length := lengthO.getD w.length
  match np_max_nat (w.routes.map Route.agent_no), np_max_nat (w.routes.map Route.route_no) with
  | some nants, some nroutes =>
    .ok (topPolygonOps w width length ++
      w.routes.map (fun rt =>
        TopOp.line (scaled_xy w.normalise_factor width length rt.positions)
          (route_colour nants nroutes rt)))
  | _, _ => .error .emptyMax

/-- Colour of one pixel of a top view, for an abstract rasteriser `cov`
deciding which pixels each PIL draw call covers: later draw calls overpaint
earlier ones and uncovered pixels keep the background. -/
def topPixel (bg : Colour) (ops : List TopOp) (cov : TopOp → ℕ × ℕ → Bool)
    (pt : ℕ × ℕ) : Colour :=
  ops.foldl (fun acc op => if cov op pt then topFill op else acc) bg

/-- One draw call of the panoramic view: the uniform-sky rectangle
(`draw.rectangle`), a sky pixel store (`pix[...] = ...`), or a filled polygon
(`draw.polygon`). -/
inductive PanOp where
  | skyRect (x0 y0 x1 y1 : ℕ) (fill : Colour)
  | skyPixel (x y : ℕ) (c : ℤ × ℤ × ℤ)
  | polygon (pts : List (ℚ × ℚ)) (fill : Colour)
  deriving DecidableEq

/-- One projected polygon of the panoramic view: row (`theta`) and column
(`phi`) pixel coordinates of its vertices, the squared representative distance
(`la.norm` squared, the sum of the squared per-vertex distances; sorting by it
is sorting by the norm itself), and the fill colour. -/
structure PanPoly where
  theta : List ℚ
  phi : List ℚ
  rhoSq : ℚ
  colour : Colour
  deriving DecidableEq

/-- `np.linspace(-np.pi, np.pi, width, endpoint=False)` (model.py line 178),
in units of pi: the azimuth samples of the sensor grid. -/
def azimuth_samples (width : ℕ) : List ℚ := np_linspace (-1) 1 width

/-- `np.linspace(np.pi/2, 0, height / 2, endpoint=False)` (model.py line 179),
in units of pi: the elevation samples of the sensor grid; `height / 2` is
Python 2 integer division. -/
def elevation_samples (height : ℕ) : List ℚ := np_linspace (1 / 2) 0 (height / 2)

/-- The ommatidia array (model.py lines 178-181): `np.meshgrid(phis, thetas)`
followed by flattening and transposing yields the (elevation, azimuth) pairs
grouped by azimuth, matching the flattening order of the meshgrid. -/
def ommatidia (width height : ℕ) : List (ℚ × ℚ) :=
  (azimuth_samples width).flatMap (fun az =>
    (elevation_samples height).map (fun el => (el, az)))

/-- Row pixel coordinates: `height * ((thetas % np.pi) / np.pi)` (line 217),
in units of pi. -/
def pixel_thetas (height : ℕ) (ths : List ℚ) : List ℚ :=
  ths.map (fun t => (height : ℚ) * qmod t 1)

/-- Column pixel coordinates:
`width * ((np.pi + phis) % (2 np.pi)) / (2 np.pi)` (line 218), in units of pi. -/
def pixel_phis (width : ℕ) (phs : List ℚ) : List ℚ :=
  phs.map (fun p => (width : ℚ) * qmod (1 + p) 2 / 2)

/-- Sum of squares: the square of `la.norm` of the per-vertex distances
(line 219).  Sorting by the squared norm orders exactly as the norm. -/
def sumSq (l : List ℚ) : ℚ := (l.map (fun x => x * x)).foldr (· + ·) 0

/-- The rotation `v.dot(R)` with
`R = [[cos r, -sin r, 0], [sin r, cos r, 0], [0, 0, 1]]` (lines 202-206), for
externally evaluated `cos r` and `sin r`. -/
def rotate (cosr sinr : ℚ) (v : ℚ × ℚ × ℚ) : ℚ × ℚ × ℚ :=
  (v.1 * cosr + v.2.1 * sinr, -(v.1 * sinr) + v.2.1 * cosr, v.2.2)

/-- The seam handling of one projected polygon (model.py lines 221-232): one
draw call if the column spread is below `width/2` (Python 2 integer division),
otherwise two draw calls with the same fill, the first with the columns below
`width/2` shifted up by `width`, the second with the columns at or above
`width/2` shifted down by `width`.  Points are (column, row) pairs, matching
`tuple((b, a) for a, b in zip(theta, phi))`. -/
def polyDrawOps (width : ℕ) (pp : PanPoly) : List PanOp :=
  if qmax pp.phi - qmin pp.phi < ((width / 2 : ℕ) : ℚ) then
    [.polygon (pp.phi.zip pp.theta) pp.colour]
  else
    [.polygon ((pp.phi.map (fun v => if v < ((width / 2 : ℕ) : ℚ) then v + (width : ℚ) else v)).zip pp.theta) pp.colour,
     .polygon ((pp.phi.map (fun v => if ((width / 2 : ℕ) : ℚ) ≤ v then v - (width : ℚ) else v)).zip pp.theta) pp.colour]

/-- The sky pixel stores (model.py lines 198-200): the i-th eye sample `c` is
written to pixel `(i // (height/2), i % (height/2))` as
`tuple(np.int32(255 * c))`, with no clamping. -/
def skyPixelOps (height : ℕ) : ℕ → List (ℚ × ℚ × ℚ) → List PanOp
  | _, [] => []
  | i, c :: cs =>
    .skyPixel (i / (height / 2)) (i % (height / 2))
      (np_int32 (255 * c.1), np_int32 (255 * c.2.1), np_int32 (255 * c.2.2)) ::
    skyPixelOps height (i + 1) cs

/-- The sky stage (model.py lines 186-200): a flat SKY_COLOUR rectangle over
the upper half for a uniform sky, otherwise one pixel store per eye sample. -/
def panSkyOps (w : World) (width height : ℕ) (L : List (ℚ × ℚ × ℚ)) : List PanOp :=
  if w.uniform_sky then [.skyRect 0 0 width (height / 2) SKY_COLOUR]
  else skyPixelOps height 0 L

/-- The state after a panoramic render (model.py lines 192-194): with a
non-uniform sky and `update_sky` set, `self.sky.obs.date = datetime.now()` is
executed and the sky regenerated; otherwise the world is untouched. -/
def panWorldAfter (w : World) (update_sky : Bool) (now : ℤ) : World :=
  if w.uniform_sky then w
  else if update_sky then { w with sky := { obs := { date := now } } } else w

/-- The projection stage (model.py lines 207-219): every polygon is scaled to
target dimensions, offset by the scaled viewpoint, rotated, sent through
`vec2sph` (external, passed as `v2s`, angles in units of pi), and converted to
pixel rows/columns and a squared representative distance. -/
def panRecords (w : World) (width length height : ℕ) (x y z cosr sinr : ℚ)
    (v2s : ℚ × ℚ × ℚ → ℚ × ℚ × ℚ) : List PanPoly :=
  let r := w.normalise_factor
  let pos : ℚ × ℚ × ℚ := (x / r * (width : ℚ), y / r * (length : ℚ), z / r * (height : ℚ))
  w.polygons.map (fun p =>
    let projs := p.vertices.map (fun v =>
      v2s (rotate cosr sinr
        (v.1 / r * (width : ℚ) - pos.1, v.2.1 / r * (length : ℚ) - pos.2.1,
         v.2.2 / r * (height : ℚ) - pos.2.2)))
    { theta := pixel_thetas height (projs.map (fun q => q.1)),
      phi := pixel_phis width (projs.map (fun q => q.2.1)),
      rhoSq := sumSq (projs.map (fun q => q.2.2)),
      colour := p.colour })

/-- `np.argsort(rhos)[::-1]` (model.py line 220): the polygons reordered by
non-increasing representative distance. -/
def sortByDesc (l : List PanPoly) : List PanPoly :=
  List.insertionSort (fun a b => b.rhoSq ≤ a.rhoSq) l

/-- The polygon stage of the panoramic view (model.py lines 220-232): the
projected polygons in non-increasing distance order, each expanded to its seam
draw calls. -/
def panPolygonOps (w : World) (width length height : ℕ) (x y z cosr sinr : ℚ)
    (v2s : ℚ × ℚ × ℚ → ℚ × ℚ × ℚ) : List PanOp :=
  (sortByDesc (panRecords w width length height x y z cosr sinr v2s)).flatMap
    (polyDrawOps width)

/-- `World.draw_panoramic_view` (model.py lines 139-236): dimension and
viewpoint defaulting, the sky stage, then the depth-sorted seam-split polygon
stage; the returned world carries the sky-clock side effect.  The operation
list is faithful for worlds with at least one polygon: with an empty polygon
list the code raises inside numpy at line 220 (`np.argsort` of the 0-d
`la.norm` of the empty `rhos` list), an error path not modelled here, so
polygon-stage operations are only asserted below for worlds holding a
polygon. -/
def draw_panoramic_view (w : World) (xO yO zO : Option ℚ) (cosr sinr : ℚ)
    (widthO lengthO heightO : Option ℕ) (update_sky : Bool) (now : ℤ)
    (L : List (ℚ × ℚ × ℚ)) (v2s : ℚ × ℚ × ℚ → ℚ × ℚ × ℚ) : List PanOp × World :=
  let width := widthO.getD w.width
  let length := lengthO.getD w.length
  let height := heightO.getD w.height
  let x := xO.getD ((width : ℚ) / 2)
  let y := yO.getD ((length : ℚ) / 2)
  let z := zO.getD ((height : ℚ) / 2 + 3 / 50 * (height : ℚ))
  (panSkyOps w width height L ++ panPolygonOps w width length height x y z cosr sinr v2s,
   panWorldAfter w update_sky now)

/-- Follows the spec's words, for comparison with the code: the maximum
absolute coordinate across all polygon vertices and all three axes. -/
def maxAbsCoordinate_spec (polys : List Polygon) : ℚ :=
  qmax ((allX polys ++ allY polys ++ allZ polys).map (fun c => |c|))

/-- A square ground-coloured polygon, the geometry of the spec's end-to-end
top-view scenario. -/
def squareGround : Polygon :=
  { vertices := [(0, 0, 0), (1, 0, 0), (1, 1, 0), (0, 1, 0)], colour := GROUND_COLOUR }

/-- A polygon whose largest-magnitude coordinate is negative. -/
def negPoly : Polygon :=
  { vertices := [(-5, 0, 0), (1, 0, 0), (0, 0, 0)], colour := GRASS_COLOUR }

/-- A polygon with all coordinates zero. -/
def zeroPoly : Polygon := { vertices := [(0, 0, 0)], colour := GRASS_COLOUR }

/-- A uniform-sky world with sky clock 5. -/
def uniWorld : World :=
  { sky := { obs := { date := 5 } }, pol_filters := true, polygons := [], routes := [],
    width := 36, length := 36, height := 10, normalise_factor := 1, uniform_sky := true }

/-- A uniform-sky world containing the ground square polygon, so that the
panoramic polygon stage is exercised on a non-empty polygon list (with an
empty polygon list the code raises inside numpy at the depth sort, an error
path outside this embedding). -/
def uniPolyWorld : World :=
  { sky := { obs := { date := 5 } }, pol_filters := true, polygons := [squareGround],
    routes := [], width := 36, length := 36, height := 10, normalise_factor := 1,
    uniform_sky := true }

/-- The world built from `squareGround` alone (as `mkWorld` returns it). -/
def groundWorld : World :=
  { sky := { obs := { date := 0 } }, pol_filters := true, polygons := [squareGround],
    routes := [], width := 36, length := 36, height := 10, normalise_factor := 1,
    uniform_sky := false }

/-- Route of agent 1. -/
def routeA : Route := { positions := [(0, 0, 0)], agent_no := 1, route_no := 1 }

/-- Route of agent 2. -/
def routeB : Route := { positions := [(1, 1, 0)], agent_no := 2, route_no := 1 }

/-- The only route of a world whose single agent has identifier 2. -/
def soloRoute : Route := { positions := [(0, 0, 0)], agent_no := 2, route_no := 1 }

/-- Projected polygon with column spread 73/4 = 18.25. -/
def seamPoly : PanPoly := { theta := [0, 0], phi := [0, 73 / 4], rhoSq := 0, colour := (1, 2, 3) }

/-- Projected polygon with columns 34, 35, 1 (straddling the seam at width 36). -/
def wrapPoly : PanPoly := { theta := [2, 3, 4], phi := [34, 35, 1], rhoSq := 0, colour := (9, 9, 9) }

/-- Projected polygon with columns 10, 11, 12 (away from the seam). -/
def midPoly : PanPoly := { theta := [2, 3, 4], phi := [10, 11, 12], rhoSq := 0, colour := (7, 7, 7) }

/-- Projected polygon at representative distance 5 (squared distance 25). -/
def farPoly : PanPoly := { theta := [0], phi := [0], rhoSq := 25, colour := (1, 0, 0) }

/-- Projected polygon at representative distance 1. -/
def nearPoly : PanPoly := { theta := [0], phi := [1], rhoSq := 1, colour := (0, 1, 0) }

/-- Projected polygon at representative distance 3 (squared distance 9). -/
def midDistPoly : PanPoly := { theta := [0], phi := [2], rhoSq := 9, colour := (0, 0, 1) }

theorem le_foldl_max {α : Type} [LinearOrder α] (l : List α) (a : α) : a ≤ l.foldl max a := by
  induction l generalizing a with
  | nil => exact le_refl a
  | cons x xs ih => exact le_trans (le_max_left a x) (ih (max a x))

theorem mem_le_foldl_max {α : Type} [LinearOrder α] (l : List α) (a x : α) (hx : x ∈ l) :
    x ≤ l.foldl max a := by
  induction l generalizing a with
  | nil => cases hx
  | cons y ys ih =>
    rcases List.mem_cons.mp hx with h | h
    · subst h
      exact le_trans (le_max_right a x) (le_foldl_max ys (max a x))
    · exact ih (max a y) h

theorem foldl_max_shift {α : Type} [LinearOrder α] (l : List α) :
    ∀ M y : α, l.foldl max (max M y) = max M (l.foldl max y) := by
  induction l with
  | nil => intro M y; rfl
  | cons z zs ih =>
    intro M y
    show zs.foldl max (max (max M y) z) = max M (zs.foldl max (max y z))
    rw [max_assoc]
    exact ih M (max y z)

theorem np_max_nat_le (l : List ℕ) (m x : ℕ) (hm : np_max_nat l = some m) (hx : x ∈ l) :
    x ≤ m := by
  rcases l with _ | ⟨y, ys⟩
  · cases hx
  · simp only [np_max_nat, Option.some.injEq] at hm
    subst hm
    rcases List.mem_cons.mp hx with h | h
    · subst h
      exact le_foldl_max ys x
    · exact mem_le_foldl_max ys y x h

theorem qmax_append (a b : List ℚ) (ha : a ≠ []) (hb : b ≠ []) :
    qmax (a ++ b) = max (qmax a) (qmax b) := by
  rcases a with _ | ⟨x, xs⟩
  · exact absurd rfl ha
  rcases b with _ | ⟨y, ys⟩
  · exact absurd rfl hb
  show qmax (x :: (xs ++ y :: ys)) = _
  simp only [qmax, np_max, Option.getD_some]
  rw [List.foldl_append]
  show ys.foldl max (max (xs.foldl max x) y) = _
  exact foldl_max_shift ys (xs.foldl max x) y

theorem mkWorld_ok (obs : Option Observer) (polys : List Polygon) (v : ℚ × ℚ × ℚ)
    (tl : List (ℚ × ℚ × ℚ)) (hv : verts polys = v :: tl) (wd ln ht : ℕ) (us pf : Bool)
    (now : ℤ) :
    mkWorld obs polys wd ln ht us pf now =
      .ok ({ sky := { obs := { date := now } }, pol_filters := pf, polygons := polys,
             routes := [], width := wd, length := ln, height := ht,
             normalise_factor :=
               max (max (qmax (allX polys)) (qmax (allY polys))) (qmax (allZ polys)),
             uniform_sky := us }, { date := now }) := by
  have hx : np_max (allX polys) = some (qmax (allX polys)) := by
    rw [allX, hv, List.map_cons]; rfl
  have hy : np_max (allY polys) = some (qmax (allY polys)) := by
    rw [allY, hv, List.map_cons]; rfl
  have hz : np_max (allZ polys) = some (qmax (allZ polys)) := by
    rw [allZ, hv, List.map_cons]; rfl
  unfold mkWorld
  rw [hx, hy, hz]

theorem length_grid {α β γ : Type} (l1 : List α) (l2 : List β) (g : α → β → γ) :
    (l1.flatMap (fun x => l2.map (g x))).length = l1.length * l2.length := by
  induction l1 with
  | nil => simp
  | cons x xs ih =>
    simp only [List.flatMap_cons, List.length_append, List.length_map, List.length_cons, ih,
      Nat.succ_mul]
    omega

theorem np_linspace_sorted_gt (a b : ℚ) (n : ℕ) (hba : b < a) :
    List.Sorted (· > ·) (np_linspace a b n) := by
  rcases Nat.eq_zero_or_pos n with hn | hn
  · subst hn
    simp [np_linspace]
  · have hn0 : (0 : ℚ) < (n : ℚ) := by exact_mod_cast hn
    rw [np_linspace]
    refine List.pairwise_map.mpr ?_
    refine (List.pairwise_lt_range n).imp ?_
    intro k j hkj
    have hkj2 : (k : ℚ) < (j : ℚ) := by exact_mod_cast hkj
    have hmul : (b - a) * (j : ℚ) < (b - a) * (k : ℚ) :=
      mul_lt_mul_of_neg_left hkj2 (sub_neg.mpr hba)
    have hdiv : (b - a) * (j : ℚ) / n < (b - a) * (k : ℚ) / n :=
      (div_lt_div_iff_of_pos_right hn0).mpr hmul
    exact add_lt_add_left hdiv a

theorem elevation_samples_bounds (height : ℕ) :
    ∀ el ∈ elevation_samples height, 0 < el ∧ el ≤ 1 / 2 := by
  intro el hel
  rw [elevation_samples, np_linspace] at hel
  rcases List.mem_map.mp hel with ⟨k, hk, rfl⟩
  have hkn : k < height / 2 := List.mem_range.mp hk
  have hp : 0 < height / 2 := by omega
  have hn0 : (0 : ℚ) < ((height / 2 : ℕ) : ℚ) := by exact_mod_cast hp
  have hne : ((height / 2 : ℕ) : ℚ) ≠ 0 := ne_of_gt hn0
  have hkq : (k : ℚ) < ((height / 2 : ℕ) : ℚ) := by exact_mod_cast hkn
  have hk0 : (0 : ℚ) ≤ (k : ℚ) := Nat.cast_nonneg k
  have hrw : (1 : ℚ) / 2 + (0 - 1 / 2) * (k : ℚ) / ((height / 2 : ℕ) : ℚ) =
      (((height / 2 : ℕ) : ℚ) - (k : ℚ)) / (2 * ((height / 2 : ℕ) : ℚ)) := by
    field_simp
    ring
  rw [hrw]
  constructor
  · exact div_pos (by linarith) (by linarith)
  · rw [div_le_iff₀ (by linarith)]
    linarith

theorem azimuth_samples_bounds (width : ℕ) :
    ∀ az ∈ azimuth_samples width, -1 ≤ az ∧ az < 1 := by
  intro az haz
  rw [azimuth_samples, np_linspace] at haz
  rcases List.mem_map.mp haz with ⟨k, hk, rfl⟩
  have hkn : k < width := List.mem_range.mp hk
  have hwp : 0 < width := by omega
  have hw0 : (0 : ℚ) < (width : ℚ) := by exact_mod_cast hwp
  have hkq : (k : ℚ) < (width : ℚ) := by exact_mod_cast hkn
  have hk0 : (0 : ℚ) ≤ (k : ℚ) := Nat.cast_nonneg k
  constructor
  · have : 0 ≤ (1 - (-1)) * (k : ℚ) / (width : ℚ) := by positivity
    linarith
  · have : (1 - (-1)) * (k : ℚ) / (width : ℚ) < 2 := by
      rw [div_lt_iff₀ hw0]
      linarith
    linarith

theorem azimuth_samples_nodup (width : ℕ) : (azimuth_samples width).Nodup := by
  rcases Nat.eq_zero_or_pos width with h | h
  · subst h
    simp [azimuth_samples, np_linspace]
  · have hw0 : (0 : ℚ) < (width : ℚ) := by exact_mod_cast h
    have hne : (width : ℚ) ≠ 0 := ne_of_gt hw0
    rw [azimuth_samples, np_linspace]
    refine List.Nodup.map ?_ (List.nodup_range width)
    intro i j hij
    have h2 : (i : ℚ) = (j : ℚ) := by
      field_simp at hij
      exact_mod_cast hij
    exact_mod_cast h2

theorem elevation_samples_head (height : ℕ) (h : 0 < height / 2) :
    (elevation_samples height).head? = some (1 / 2) := by
  obtain ⟨m, hm⟩ := Nat.exists_eq_succ_of_ne_zero (Nat.pos_iff_ne_zero.mp h)
  rw [elevation_samples, np_linspace, hm, List.range_succ_eq_map, List.map_cons]
  norm_num

theorem qmod_of_lt (v w : ℚ) (h0 : 0 ≤ v) (h1 : v < w) : qmod v w = v := by
  have hw : 0 < w := lt_of_le_of_lt h0 h1
  have hf : ⌊v / w⌋ = 0 := by
    rw [Int.floor_eq_zero_iff]
    constructor
    · exact div_nonneg h0 (le_of_lt hw)
    · exact (div_lt_one hw).mpr h1
  rw [qmod, hf]
  push_cast
  ring

theorem qmod_add_right (v w : ℚ) (h0 : 0 ≤ v) (h1 : v < w) : qmod (v + w) w = v := by
  have hw : 0 < w := lt_of_le_of_lt h0 h1
  have hne : w ≠ 0 := ne_of_gt hw
  have hq : (v + w) / w = v / w + 1 := by field_simp
  have hf0 : ⌊v / w⌋ = 0 := by
    rw [Int.floor_eq_zero_iff]
    exact ⟨div_nonneg h0 (le_of_lt hw), (div_lt_one hw).mpr h1⟩
  have hf : ⌊(v + w) / w⌋ = 1 := by
    rw [hq, Int.floor_add_one, hf0]
    norm_num
  rw [qmod, hf]
  push_cast
  ring

theorem qmod_sub_right (v w : ℚ) (h0 : 0 ≤ v) (h1 : v < w) : qmod (v - w) w = v := by
  have hw : 0 < w := lt_of_le_of_lt h0 h1
  have hne : w ≠ 0 := ne_of_gt hw
  have hq : (v - w) / w = v / w - 1 := by field_simp
  have hf0 : ⌊v / w⌋ = 0 := by
    rw [Int.floor_eq_zero_iff]
    exact ⟨div_nonneg h0 (le_of_lt hw), (div_lt_one hw).mpr h1⟩
  have hf : ⌊(v - w) / w⌋ = -1 := by
    rw [hq, Int.floor_sub_one, hf0]
    norm_num
  rw [qmod, hf]
  push_cast
  ring

theorem np_int32_of_bounds (x : ℚ) (h0 : 0 ≤ x) (h1 : x ≤ 255) :
    np_int32 x = ⌊x⌋ ∧ 0 ≤ np_int32 x ∧ np_int32 x ≤ 255 := by
  have ht : qtrunc x = ⌊x⌋ := if_pos h0
  have hf0 : 0 ≤ ⌊x⌋ := Int.floor_nonneg.mpr h0
  have hf1 : ⌊x⌋ ≤ 255 := by
    calc ⌊x⌋ ≤ ⌊(255 : ℚ)⌋ := Int.floor_le_floor h1
    _ = 255 := by norm_num
  have hm : (⌊x⌋ + 2 ^ 31) % 2 ^ 32 = ⌊x⌋ + 2 ^ 31 := by
    apply Int.emod_eq_of_lt <;> omega
  rw [np_int32, ht, hm]
  refine ⟨by omega, by omega, by omega⟩

theorem np_int32_channel (c : ℚ) (h0 : 0 ≤ c) (h1 : c ≤ 1) :
    0 ≤ np_int32 (255 * c) ∧ np_int32 (255 * c) ≤ 255 := by
  have h := np_int32_of_bounds (255 * c) (by nlinarith) (by nlinarith)
  exact ⟨h.2.1, h.2.2⟩

theorem foldl_paint_const (bg : Colour) (ops : List TopOp) (cov : TopOp → ℕ × ℕ → Bool)
    (pt : ℕ × ℕ) :
    ∀ acc : Colour, acc = bg → (∀ op ∈ ops, topFill op = bg) →
      ops.foldl (fun a op => if cov op pt then topFill op else a) acc = bg := by
  induction ops with
  | nil => intro acc hacc _; exact hacc
  | cons op tl ih =>
    intro acc hacc h
    apply ih
    · show (if cov op pt then topFill op else acc) = bg
      by_cases hc : cov op pt
      · rw [if_pos hc]
        exact h op (List.mem_cons_self op tl)
      · rw [if_neg hc]
        exact hacc
    · intro o ho
      exact h o (List.mem_cons_of_mem op ho)

theorem np_linspace_ep_getD (a b : ℚ) (n k : ℕ) (hk : k < n) :
    (np_linspace_ep a b n).getD k 0 =
      if n = 1 then a else a + (b - a) * (k : ℚ) / ((n - 1 : ℕ) : ℚ) := by
  by_cases h1 : n = 1
  · subst h1
    have hk0 : k = 0 := by omega
    subst hk0
    simp [np_linspace_ep]
  · rw [np_linspace_ep, if_neg h1, if_neg h1]
    rw [List.getD_eq_getElem?_getD, List.getElem?_map, List.getElem?_range hk]
    rfl

theorem linspace_rank (n k : ℕ) (h1 : 1 ≤ k) (h2 : k ≤ n) :
    np_index (np_linspace_ep 0 1 n) ((k : ℤ) - 1) =
      if n = 1 then 0 else ((k : ℚ) - 1) / ((n : ℚ) - 1) := by
  have hk1 : (1 : ℤ) ≤ (k : ℤ) := by exact_mod_cast h1
  have hi : (0 : ℤ) ≤ (k : ℤ) - 1 := by omega
  rw [np_index, if_pos hi]
  have htn : ((k : ℤ) - 1).toNat = k - 1 := by omega
  rw [htn]
  have hlt : k - 1 < n := by omega
  rw [np_linspace_ep_getD 0 1 n (k - 1) hlt]
  by_cases hn1 : n = 1
  · simp [hn1]
  · rw [if_neg hn1, if_neg hn1]
    have hn : 1 ≤ n := le_trans h1 h2
    have hc1 : ((n - 1 : ℕ) : ℚ) = (n : ℚ) - 1 := by
      rw [Nat.cast_sub hn]
      norm_num
    have hc2 : ((k - 1 : ℕ) : ℚ) = (k : ℚ) - 1 := by
      rw [Nat.cast_sub h1]
      norm_num
    rw [hc1, hc2]
    ring

/-- C1, counterexample to the claim as stated: for the polygon with vertices
(-5,0,0), (1,0,0), (0,0,0) the stored scale factor `ratio2meters` is 1 (the
maximum signed coordinate), while the maximum absolute coordinate of the spec's
sentence is 5. -/
theorem C1_counterexample :
    (mkWorld none [negPoly] 36 36 10 false true 0).toOption.map
        (fun p => p.1.ratio2meters) = some 1 ∧
    maxAbsCoordinate_spec [negPoly] = 5 ∧ (1 : ℚ) ≠ 5 := by
  refine ⟨by with_unfolding_all rfl, by with_unfolding_all rfl, by norm_num⟩

/-- C1 (amended): for every world constructed from a polygon set with at least
one vertex, `ratio2meters` equals the maximum signed coordinate over all
vertices and all three axes (not the maximum absolute coordinate), it is the
factor stored once at construction, and no rendering operation changes the
stored polygons or the stored factor. -/
theorem C1_theorem :
    (∀ (obs : Option Observer) (polys : List Polygon) (wd ln ht : ℕ) (us pf : Bool) (now : ℤ),
      verts polys ≠ [] →
      (mkWorld obs polys wd ln ht us pf now).toOption.map (fun p => p.1.ratio2meters) =
        some (qmax (allX polys ++ allY polys ++ allZ polys))) ∧
    (∀ (w : World) (xO yO zO : Option ℚ) (cosr sinr : ℚ) (wO lO hO : Option ℕ)
      (us : Bool) (now : ℤ) (L : List (ℚ × ℚ × ℚ)) (v2s : ℚ × ℚ × ℚ → ℚ × ℚ × ℚ),
      (draw_panoramic_view w xO yO zO cosr sinr wO lO hO us now L v2s).2.polygons = w.polygons ∧
      (draw_panoramic_view w xO yO zO cosr sinr wO lO hO us now L v2s).2.ratio2meters =
        w.ratio2meters) := by
  constructor
  · intro obs polys wd ln ht us pf now hne
    obtain ⟨v, tl, hv⟩ := List.exists_cons_of_ne_nil hne
    rw [mkWorld_ok obs polys v tl hv]
    have hxne : allX polys ≠ [] := by rw [allX, hv]; simp
    have hyne : allY polys ≠ [] := by rw [allY, hv]; simp
    have hzne : allZ polys ≠ [] := by rw [allZ, hv]; simp
    have hxy : allX polys ++ allY polys ≠ [] :=
      fun hc => hxne (List.append_eq_nil.mp hc).1
    rw [qmax_append _ _ hxy hzne, qmax_append _ _ hxne hyne]
    rfl
  · intro w xO yO zO cosr sinr wO lO hO us now L v2s
    constructor
    · show (panWorldAfter w us now).polygons = w.polygons
      unfold panWorldAfter
      split
      · rfl
      · split <;> rfl
    · show (panWorldAfter w us now).ratio2meters = w.ratio2meters
      unfold panWorldAfter World.ratio2meters
      split
      · rfl
      · split <;> rfl

/-- C1 witness: the amended claim evaluated at a concrete polygon set and a
concrete render call. -/
theorem C1_witness :
    (mkWorld none [negPoly] 36 36 10 false true 0).toOption.map
        (fun p => p.1.ratio2meters) =
      some (qmax (allX [negPoly] ++ allY [negPoly] ++ allZ [negPoly])) ∧
    (draw_panoramic_view groundWorld none none none 1 0 none none none false 0 []
        (fun v => v)).2.polygons = groundWorld.polygons := by
  refine ⟨C1_theorem.1 none [negPoly] 36 36 10 false true 0 (by simp [verts, negPoly]), ?_⟩
  exact (C1_theorem.2 groundWorld none none none 1 0 none none none false 0 [] (fun v => v)).1

/-- C2, counterexample to the claim as stated: at width 37 the polygon with
columns 0 and 73/4 has spread 18.25, strictly below half the image width 18.5,
yet the renderer issues two draw calls (the code compares against the floored
`width/2 = 18`, not against `width/2` exactly). -/
theorem C2_counterexample :
    qmax seamPoly.phi - qmin seamPoly.phi < (37 : ℚ) / 2 ∧
    (polyDrawOps 37 seamPoly).length = 2 := by
  constructor
  · have h : qmax seamPoly.phi - qmin seamPoly.phi = 73 / 4 := by with_unfolding_all rfl
    rw [h]
    norm_num
  · with_unfolding_all rfl

/-- C2 (amended): for every projected polygon, if the column spread is below
the floored half width `width/2` (equal to half the image width whenever the
width is even) exactly one filled-polygon draw call is issued; otherwise
exactly two draw calls are issued with the same fill colour, the first with
every column below `width/2` shifted up by `width`, the second with every
column at or above `width/2` shifted down by `width`; for columns inside
[0, width) the shifted copies reconstruct the original columns after reduction
modulo `width`. -/
theorem C2_theorem (width : ℕ) (pp : PanPoly) :
    (qmax pp.phi - qmin pp.phi < ((width / 2 : ℕ) : ℚ) →
      polyDrawOps width pp = [PanOp.polygon (pp.phi.zip pp.theta) pp.colour]) ∧
    (((width / 2 : ℕ) : ℚ) ≤ qmax pp.phi - qmin pp.phi →
      polyDrawOps width pp =
        [PanOp.polygon
            ((pp.phi.map (fun v => if v < ((width / 2 : ℕ) : ℚ) then v + (width : ℚ) else v)).zip
              pp.theta) pp.colour,
         PanOp.polygon
            ((pp.phi.map (fun v => if ((width / 2 : ℕ) : ℚ) ≤ v then v - (width : ℚ) else v)).zip
              pp.theta) pp.colour]) ∧
    (∀ v ∈ pp.phi, 0 ≤ v → v < (width : ℚ) →
      qmod (v + (width : ℚ)) (width : ℚ) = v ∧ qmod (v - (width : ℚ)) (width : ℚ) = v ∧
        qmod v (width : ℚ) = v) := by
  refine ⟨?_, ?_, ?_⟩
  · intro h
    rw [polyDrawOps, if_pos h]
  · intro h
    rw [polyDrawOps, if_neg (not_lt.mpr h)]
  · intro v _ h0 h1
    exact ⟨qmod_add_right v _ h0 h1, qmod_sub_right v _ h0 h1, qmod_of_lt v _ h0 h1⟩

/-- C2 witness: the polygon with columns 10, 11, 12 yields one draw call at
width 36; the seam-straddling polygon with columns 34, 35, 1 yields the two
shifted draw calls. -/
theorem C2_witness :
    polyDrawOps 36 midPoly = [PanOp.polygon (midPoly.phi.zip midPoly.theta) midPoly.colour] ∧
    polyDrawOps 36 wrapPoly =
      [PanOp.polygon
          ((wrapPoly.phi.map (fun v => if v < ((36 / 2 : ℕ) : ℚ) then v + (36 : ℚ) else v)).zip
            wrapPoly.theta) wrapPoly.colour,
       PanOp.polygon
          ((wrapPoly.phi.map (fun v => if ((36 / 2 : ℕ) : ℚ) ≤ v then v - (36 : ℚ) else v)).zip
            wrapPoly.theta) wrapPoly.colour] :=
  ⟨(C2_theorem 36 midPoly).1 (by
      have h : qmax midPoly.phi - qmin midPoly.phi = 2 := by with_unfolding_all rfl
      rw [h]
      norm_num),
   (C2_theorem 36 wrapPoly).2.1 (by
      have h : qmax wrapPoly.phi - qmin wrapPoly.phi = 34 := by with_unfolding_all rfl
      rw [h]
      norm_num)⟩

/-- C3: the panoramic polygon stage is sorted by non-increasing representative
distance (stated on the squared distance `rhoSq`, which orders exactly as the
norm does), the sort is a permutation of the projected polygons, the three
polygons at distances 5, 1, 3 are drawn in the order 5, 3, 1, and every
polygon draw call is issued after the sky operations, which come first in the
returned operation list. -/
theorem C3_theorem :
    (∀ l : List PanPoly,
      List.Sorted (fun a b => b.rhoSq ≤ a.rhoSq) (sortByDesc l) ∧ (sortByDesc l).Perm l) ∧
    List.map PanPoly.colour (sortByDesc [farPoly, nearPoly, midDistPoly]) =
      [farPoly.colour, midDistPoly.colour, nearPoly.colour] ∧
    (∀ (w : World) (x y z cosr sinr : ℚ) (wd ln ht : ℕ) (us : Bool) (now : ℤ)
      (L : List (ℚ × ℚ × ℚ)) (v2s : ℚ × ℚ × ℚ → ℚ × ℚ × ℚ),
      (draw_panoramic_view w (some x) (some y) (some z) cosr sinr (some wd) (some ln) (some ht)
          us now L v2s).1 =
        panSkyOps w wd ht L ++
          (sortByDesc (panRecords w wd ln ht x y z cosr sinr v2s)).flatMap (polyDrawOps wd)) := by
  refine ⟨?_, by with_unfolding_all rfl, ?_⟩
  · intro l
    haveI h1 : IsTotal PanPoly (fun a b => b.rhoSq ≤ a.rhoSq) :=
      ⟨fun a b => le_total b.rhoSq a.rhoSq⟩
    haveI h2 : IsTrans PanPoly (fun a b => b.rhoSq ≤ a.rhoSq) :=
      ⟨fun _ _ _ hab hbc => le_trans hbc hab⟩
    exact ⟨List.sorted_insertionSort _ l, List.perm_insertionSort _ l⟩
  · intro w x y z cosr sinr wd ln ht us now L v2s
    rfl

/-- C4: the sensor grid has exactly `width * (height/2)` direction pairs, the
elevation samples strictly decrease from the zenith value 1/2 (in units of pi)
and stay strictly above the horizon 0, the azimuth samples cover the half-open
revolution [-1, 1) without a repeat, and for width 36 and height 10 the grid
has exactly 180 directions. -/
theorem C4_theorem (width height : ℕ) :
    (ommatidia width height).length = width * (height / 2) ∧
    List.Sorted (· > ·) (elevation_samples height) ∧
    (∀ el ∈ elevation_samples height, 0 < el ∧ el ≤ 1 / 2) ∧
    (0 < height / 2 → (elevation_samples height).head? = some (1 / 2)) ∧
    (∀ az ∈ azimuth_samples width, -1 ≤ az ∧ az < 1) ∧
    (azimuth_samples width).Nodup ∧
    (ommatidia 36 10).length = 180 := by
  refine ⟨?_, ?_, elevation_samples_bounds height, elevation_samples_head height,
    azimuth_samples_bounds width, azimuth_samples_nodup width, ?_⟩
  · rw [ommatidia, length_grid]
    simp [azimuth_samples, elevation_samples, np_linspace]
  · rw [elevation_samples]
    exact np_linspace_sorted_gt _ _ _ (by norm_num)
  · rw [ommatidia, length_grid]
    simp [azimuth_samples, elevation_samples, np_linspace]

/-- C4 witness: the grid size and the zenith head sample evaluated at the
claim's dimensions 36 and 10. -/
theorem C4_witness :
    (ommatidia 36 10).length = 36 * (10 / 2) ∧
    (elevation_samples 10).head? = some (1 / 2) :=
  ⟨(C4_theorem 36 10).1, (C4_theorem 36 10).2.2.2.1 (by decide)⟩

/-- C5, counterexample to the claim as stated: constructing a world from the
all-zero polygon set succeeds (scale factor 0) instead of failing with a
ConfigurationError, and the panoramic render of a polygon-bearing world at the
odd width 3 succeeds, returning its sky and polygon draw operations, instead
of failing. -/
theorem C5_counterexample :
    (mkWorld none [zeroPoly] 36 36 10 false true 0).toOption.map
        (fun p => p.1.ratio2meters) = some 0 ∧
    (draw_panoramic_view uniPolyWorld (some 0) (some 0) (some 0) 1 0 (some 3) (some 3) (some 4)
        false 0 [] (fun v => v)).1 =
      [PanOp.skyRect 0 0 3 2 SKY_COLOUR,
       PanOp.polygon [(3 / 2, 0), (3 / 2, 0), (3, 0), (3, 0)] GROUND_COLOUR,
       PanOp.polygon [(-(3 / 2), 0), (-(3 / 2), 0), (0, 0), (0, 0)] GROUND_COLOUR] := by
  refine ⟨by with_unfolding_all rfl, by with_unfolding_all rfl⟩

/-- C5 (amended): the code performs no validation and raises no
ConfigurationError: construction from an empty polygon set fails with the
empty-array maximum (numpy's ValueError, not a ConfigurationError),
construction from an all-zero polygon set succeeds with scale factor 0, and
the panoramic render checks neither width parity nor dimension positivity -
rendering a world that holds a polygon at the odd width 3 and at all-zero
dimensions completes and returns its sky and polygon draw operations. -/
theorem C5_theorem :
    mkWorld none [] 36 36 10 false true 0 = .error .emptyMax ∧
    (mkWorld none [zeroPoly] 36 36 10 false true 0).toOption.map
        (fun p => p.1.ratio2meters) = some 0 ∧
    (draw_panoramic_view uniPolyWorld (some 0) (some 0) (some 0) 1 0 (some 3) (some 3) (some 4)
        false 0 [] (fun v => v)).1 =
      [PanOp.skyRect 0 0 3 2 SKY_COLOUR,
       PanOp.polygon [(3 / 2, 0), (3 / 2, 0), (3, 0), (3, 0)] GROUND_COLOUR,
       PanOp.polygon [(-(3 / 2), 0), (-(3 / 2), 0), (0, 0), (0, 0)] GROUND_COLOUR] ∧
    (draw_panoramic_view uniPolyWorld (some 0) (some 0) (some 0) 1 0 (some 0) (some 0) (some 0)
        false 0 [] (fun v => v)).1 =
      [PanOp.skyRect 0 0 0 0 SKY_COLOUR,
       PanOp.polygon [(0, 0), (0, 0), (0, 0), (0, 0)] GROUND_COLOUR,
       PanOp.polygon [(0, 0), (0, 0), (0, 0), (0, 0)] GROUND_COLOUR] := by
  refine ⟨rfl, by with_unfolding_all rfl, by with_unfolding_all rfl, by with_unfolding_all rfl⟩

/-- C6, counterexample to the claim as stated: the top view of the
single-ground-polygon world with an empty route list fails with the
empty-route maximum instead of returning an image. -/
theorem C6_counterexample :
    draw_top_view groundWorld (some 50) (some 50) none = .error .emptyMax := by
  with_unfolding_all rfl

/-- C6 (amended): the world built from the single ground-coloured square
polygon has no routes, its top-down render at 50x50 fails with the empty-route
maximum (`np.array([]).max()` in the route-colour stage) instead of producing
an image, and the polygon stage alone would leave every pixel equal to the
ground colour (all its fills equal the GROUND_COLOUR background, for every
rasteriser and every pixel). -/
theorem C6_theorem :
    (mkWorld none [squareGround] 36 36 10 false true 0).toOption.map Prod.fst =
      some groundWorld ∧
    draw_top_view groundWorld (some 50) (some 50) none = .error .emptyMax ∧
    ∀ (cov : TopOp → ℕ × ℕ → Bool) (pt : ℕ × ℕ),
      topPixel GROUND_COLOUR (topPolygonOps groundWorld 50 50) cov pt = GROUND_COLOUR := by
  refine ⟨by with_unfolding_all rfl, by with_unfolding_all rfl, ?_⟩
  intro cov pt
  rw [topPixel]
  apply foldl_paint_const GROUND_COLOUR (topPolygonOps groundWorld 50 50) cov pt
      GROUND_COLOUR rfl
  intro op hop
  have hops : topPolygonOps groundWorld 50 50 =
      [TopOp.polygon [(0, 0), (50, 0), (50, 50), (0, 50)] GROUND_COLOUR] := by
    with_unfolding_all rfl
  rw [hops] at hop
  rw [List.mem_singleton] at hop
  subst hop
  rfl

/-- C7, counterexample to the claim as stated: in a world whose only route
belongs to the single agent with identifier 2, that agent's hue is 1, not the
claimed rank 0: the code indexes `linspace(0, 1, maxAgentId)` with
`agent_no - 1`, so a lone agent with identifier above 1 lands on 1. -/
theorem C7_counterexample :
    np_max_nat ([soloRoute].map Route.agent_no) = some 2 ∧
    route_hsv 2 1 soloRoute = (1, 0, 1 / 2) ∧ (1 : ℚ) ≠ 0 := by
  refine ⟨rfl, by with_unfolding_all rfl, by norm_num⟩

/-- C7 (amended): for every stored route with 1-based identifiers, the
polyline hue is (agent_no - 1)/(nants - 1) where nants is the maximum agent
identifier over the routes (not a rank among distinct identifiers), and 0 when
nants = 1; the saturation is (route_no - 1)/(nroutes - 1) with nroutes the
maximum route identifier, 0 when nroutes = 1; the brightness is the fixed 1/2.
The nants = 1 and nroutes = 1 cases come from the one-sample linspace, so no
division by zero occurs. -/
theorem C7_theorem (routes : List Route) (rt : Route) (nants nroutes : ℕ)
    (hmem : rt ∈ routes) (ha : 1 ≤ rt.agent_no) (hr : 1 ≤ rt.route_no)
    (hA : np_max_nat (routes.map Route.agent_no) = some nants)
    (hR : np_max_nat (routes.map Route.route_no) = some nroutes) :
    route_hsv nants nroutes rt =
      ((if nants = 1 then 0 else ((rt.agent_no : ℚ) - 1) / ((nants : ℚ) - 1)),
       (if nroutes = 1 then 0 else ((rt.route_no : ℚ) - 1) / ((nroutes : ℚ) - 1)),
       1 / 2) := by
  have hA2 : rt.agent_no ≤ nants :=
    np_max_nat_le _ _ _ hA (List.mem_map_of_mem Route.agent_no hmem)
  have hR2 : rt.route_no ≤ nroutes :=
    np_max_nat_le _ _ _ hR (List.mem_map_of_mem Route.route_no hmem)
  unfold route_hsv
  rw [linspace_rank nants rt.agent_no ha hA2, linspace_rank nroutes rt.route_no hr hR2]

/-- C7 witness: the amended colour formula evaluated for the second of two
routes with agent identifiers 1 and 2 and route identifiers 1 and 1. -/
theorem C7_witness :
    route_hsv 2 1 routeB =
      ((if (2 : ℕ) = 1 then 0 else (((2 : ℕ) : ℚ) - 1) / (((2 : ℕ) : ℚ) - 1)),
       (if (1 : ℕ) = 1 then 0 else (((1 : ℕ) : ℚ) - 1) / (((1 : ℕ) : ℚ) - 1)),
       1 / 2) :=
  C7_theorem [routeA, routeB] routeB 2 1 (by simp) (by decide) (by decide)
    (by decide) (by decide)

/-- C8, counterexample to the claim as stated: the out-of-range sample value 2
is written as channel 510, outside 0..255 — `np.int32(255 * c)` scales and
truncates but never clamps. -/
theorem C8_counterexample :
    skyPixelOps 10 0 [(2, 0, 0)] = [PanOp.skyPixel 0 0 (510, 0, 0)] ∧
    ¬((510 : ℤ) ≤ 255) := by
  refine ⟨by with_unfolding_all rfl, by norm_num⟩

/-- C8 (amended): every sky sample whose components all lie in [0,1] is
written to its grid-indexed pixel with all three channels in 0..255 (scaling
by 255 and truncating); there is no clamping, so the range guarantee holds
only for in-range samples. -/
theorem C8_theorem (height i0 : ℕ) (L : List (ℚ × ℚ × ℚ))
    (hb : ∀ c ∈ L, 0 ≤ c.1 ∧ c.1 ≤ 1 ∧ 0 ≤ c.2.1 ∧ c.2.1 ≤ 1 ∧ 0 ≤ c.2.2 ∧ c.2.2 ≤ 1) :
    ∀ op ∈ skyPixelOps height i0 L, ∀ (x y : ℕ) (rgb : ℤ × ℤ × ℤ),
      op = PanOp.skyPixel x y rgb →
      0 ≤ rgb.1 ∧ rgb.1 ≤ 255 ∧ 0 ≤ rgb.2.1 ∧ rgb.2.1 ≤ 255 ∧ 0 ≤ rgb.2.2 ∧
        rgb.2.2 ≤ 255 := by
  revert hb
  induction L generalizing i0 with
  | nil =>
    intro hb op hop
    simp [skyPixelOps] at hop
  | cons c cs ih =>
    intro hb op hop x y rgb heq
    simp only [skyPixelOps] at hop
    rcases List.mem_cons.mp hop with h | h
    · subst h
      injection heq with h1 h2 h3
      subst h3
      obtain ⟨hb1, hb2, hb3, hb4, hb5, hb6⟩ := hb c (List.mem_cons_self c cs)
      have g1 := np_int32_channel c.1 hb1 hb2
      have g2 := np_int32_channel c.2.1 hb3 hb4
      have g3 := np_int32_channel c.2.2 hb5 hb6
      exact ⟨g1.1, g1.2, g2.1, g2.2, g3.1, g3.2⟩
    · exact ih (i0 + 1)
        (fun d hd => hb d (List.mem_cons_of_mem c hd)) op h x y rgb heq

/-- C8 witness: the amended bound evaluated at the sample (1/2, 0, 1), written
as the pixel channels (127, 0, 255). -/
theorem C8_witness :
    0 ≤ (127 : ℤ) ∧ (127 : ℤ) ≤ 255 ∧ 0 ≤ (0 : ℤ) ∧ (0 : ℤ) ≤ 255 ∧ 0 ≤ (255 : ℤ) ∧
      (255 : ℤ) ≤ 255 :=
  C8_theorem 10 0 [(1 / 2, 0, 1)]
    (by
      intro c hc
      rw [List.mem_singleton] at hc
      subst hc
      norm_num)
    (PanOp.skyPixel 0 0 (127, 0, 255))
    (by
      rw [show skyPixelOps 10 0 [(1 / 2, 0, 1)] = [PanOp.skyPixel 0 0 (127, 0, 255)] from by
        with_unfolding_all rfl]
      exact List.mem_singleton_self _)
    0 0 (127, 0, 255) rfl

/-- C9: rendering is deterministic in its inputs — the top view is a pure
function of the world state and the call parameters (re-evaluating the same
call gives identical draw operations), and the panoramic render with the sky
refresh disabled does not depend on the clock at all. -/
theorem C9_theorem :
    (∀ (w : World) (wO lO hO : Option ℕ),
      draw_top_view w wO lO hO = draw_top_view w wO lO hO) ∧
    (∀ (w : World) (xO yO zO : Option ℚ) (cosr sinr : ℚ) (wO lO hO : Option ℕ)
      (now1 now2 : ℤ) (L : List (ℚ × ℚ × ℚ)) (v2s : ℚ × ℚ × ℚ → ℚ × ℚ × ℚ),
      draw_panoramic_view w xO yO zO cosr sinr wO lO hO false now1 L v2s =
        draw_panoramic_view w xO yO zO cosr sinr wO lO hO false now2 L v2s) := by
  refine ⟨fun w wO lO hO => rfl, ?_⟩
  intro w xO yO zO cosr sinr wO lO hO now1 now2 L v2s
  rfl

/-- C10, counterexample to the claim as stated: for a uniform-sky world the
panoramic render with the refresh flag set leaves the sky clock untouched (the
date stays 5 instead of becoming 9), because the refresh sits inside the
non-uniform-sky branch. -/
theorem C10_counterexample :
    (draw_panoramic_view uniWorld none none none 1 0 none none none true 9 []
        (fun v => v)).2.sky.obs.date = 5 ∧ (5 : ℤ) ≠ 9 := by
  refine ⟨by with_unfolding_all rfl, by norm_num⟩

/-- C10 (amended): constructing a world overwrites the caller-supplied
observer's date with the current time before the sky model is created from it
(both the returned observer and the stored sky observer carry `now`), on every
construction; the panoramic render with the refresh flag set overwrites the
same clock again whenever the sky is non-uniform (with a uniform sky the flag
is ignored). -/
theorem C10_theorem :
    (∀ (obs : Observer) (polys : List Polygon) (wd ln ht : ℕ) (us pf : Bool) (now : ℤ),
      verts polys ≠ [] →
      (mkWorld (some obs) polys wd ln ht us pf now).toOption.map
        (fun p => (p.2.date, p.1.sky.obs.date)) = some (now, now)) ∧
    (∀ (w : World) (xO yO zO : Option ℚ) (cosr sinr : ℚ) (wO lO hO : Option ℕ)
      (now2 : ℤ) (L : List (ℚ × ℚ × ℚ)) (v2s : ℚ × ℚ × ℚ → ℚ × ℚ × ℚ),
      w.uniform_sky = false →
      (draw_panoramic_view w xO yO zO cosr sinr wO lO hO true now2 L v2s).2.sky.obs.date =
        now2) := by
  constructor
  · intro obs polys wd ln ht us pf now hne
    obtain ⟨v, tl, hv⟩ := List.exists_cons_of_ne_nil hne
    rw [mkWorld_ok (some obs) polys v tl hv]
    rfl
  · intro w xO yO zO cosr sinr wO lO hO now2 L v2s huni
    show (panWorldAfter w true now2).sky.obs.date = now2
    unfold panWorldAfter
    rw [huni]
    simp

/-- C10 witness: the construction-time mutation evaluated for a caller
observer with date 5 and clock 7, and the render-time mutation evaluated for
the non-uniform-sky ground world with clock 9. -/
theorem C10_witness :
    (mkWorld (some { date := 5 }) [zeroPoly] 36 36 10 false true 7).toOption.map
        (fun p => (p.2.date, p.1.sky.obs.date)) = some (7, 7) ∧
    (draw_panoramic_view groundWorld none none none 1 0 none none none true 9 []
        (fun v => v)).2.sky.obs.date = 9 :=
  ⟨C10_theorem.1 { date := 5 } [zeroPoly] 36 36 10 false true 7 (by simp [verts, zeroPoly]),
   C10_theorem.2 groundWorld none none none 1 0 none none none 9 [] (fun v => v) rfl⟩

end Willshaw
